import Mathlib

/-!
# Verification of the huachuca auth core

Shallow embedding of the authentication/authorization core of the
repository: the permission model (`HasPermission` and friends), the token
service (`GenerateToken` / `ValidateToken`), the refresh session store
(`CreateRefreshToken` / `ValidateRefreshToken` / `CleanupExpiredTokens`),
the OAuth state store (`StoreState` / `ValidateAndDeleteState`) and the
auth middleware gates (`RequireAuth`, `RequirePermissions`,
`RequireAnyPermission`, `RequireSameOrg`).

Modelling conventions:
- UUIDs and RSA keys are identified by `Nat` tags; two keys are the same
  keypair exactly when their tags agree.
- Wall-clock time is a `Nat` (seconds); SQL `NOW()` and `time.Now()`
  become an explicit `now` argument.
- The SHA-256 `HashToken` is an abstract function `hash : Nat → Nat`;
  collision-freedom is an explicit injectivity hypothesis where needed.
- Randomness (`GenerateRefreshToken`, `rand`) is nondeterministic input:
  the freshly generated secret is a parameter, and its freshness
  (distinctness from earlier secrets) is a hypothesis.
- The refresh-token SQL table is a `List` of rows; `DELETE ... WHERE`
  is `List.filter` with the negated condition, `SELECT ... WHERE` is
  `List.find?`.
- Database I/O failure of the expired-token sweep is injected through an
  explicit `Option String` argument (`none` = the sweep call succeeds).
-/

namespace Huachuca

/-- A principal, from the `User` struct: id, organization id, role and the
per-user permission overrides (`Permissions map[string]bool`, here an
association list looked up with Go's zero-value-on-missing semantics). -/
structure User where
  id : Nat
  organizationID : Nat
  role : String
  permissions : List (String × Bool)
deriving DecidableEq

/-- The static role→permission table `RolePermissions` from the source
(permission strings verbatim). An unknown role has no entry, which the
`ok` check in `HasPermission` turns into no role-granted permissions. -/
def RolePermissions (role : String) : List String :=
  if role = "owner" then
    ["create:org", "read:org", "update:org", "delete:org",
     "invite:user", "remove:user", "update:user", "manage:settings"]
  else if role = "admin" then
    ["read:org", "update:org", "invite:user", "remove:user",
     "update:user", "manage:settings"]
  else if role = "sub_account" then
    ["read:org"]
  else []

/-- Go map indexing `u.Permissions[string(perm)]`: the stored value if the
key is present, `false` otherwise. -/
def permsLookup (perms : List (String × Bool)) (p : String) : Bool :=
  match perms.find? (fun q => decide (q.1 = p)) with
  | some q => q.2
  | none => false

/-- Model of `(*User).HasPermission`: role-table membership first, then the
user-specific override map. -/
def hasPermission (u : User) (perm : String) : Bool :=
  (RolePermissions u.role).contains perm || permsLookup u.permissions perm

/-- Model of `(*User).HasAnyPermission`: OR over `HasPermission`. -/
def hasAnyPermission (u : User) (perms : List String) : Bool :=
  perms.any (hasPermission u)

/-- Model of `(*User).HasAllPermissions`: AND over `HasPermission`. -/
def hasAllPermissions (u : User) (perms : List String) : Bool :=
  perms.all (hasPermission u)

/-- Outcome of a middleware gate on one request: either a terminal HTTP
response (`http.Error(w, body, status)`) or passing the request on to the
next handler with the principal attached. -/
inductive AuthOutcome where
  | respond (status : Nat) (body : String)
  | proceed (u : User)
deriving DecidableEq

/-- Model of `RequirePermissions(perms...)`: 401 when no user is in the request
context, 403 when `HasAllPermissions` fails, otherwise dispatch. -/
def requirePermissions (perms : List String) (ctxUser : Option User) : AuthOutcome :=
  match ctxUser with
  | none => .respond 401 "Unauthorized"
  | some u =>
    if hasAllPermissions u perms then .proceed u
    else .respond 403 "Forbidden"

/-- Model of `RequireAnyPermission(perms...)`: 401 when no user is in the request
context, 403 when `HasAnyPermission` fails, otherwise dispatch. -/
def requireAnyPermission (perms : List String) (ctxUser : Option User) : AuthOutcome :=
  match ctxUser with
  | none => .respond 401 "Unauthorized"
  | some u =>
    if hasAnyPermission u perms then .proceed u
    else .respond 403 "Forbidden"

/-- Go `strings.Split` with a one-character separator, on the character
list: splitting the empty string gives one empty field, and each
separator occurrence starts a new field. -/
def splitChar (c : Char) : List Char → List (List Char)
  | [] => [[]]
  | a :: rest =>
    if a = c then [] :: splitChar c rest
    else
      match splitChar c rest with
      | [] => [[a]]
      | w :: ws => (a :: w) :: ws

/-- Go `strings.Split(s, sep)` for the one-character separators the
middleware uses (`" "` and `"/"`). -/
def goSplit (s : String) (c : Char) : List String :=
  (splitChar c s.toList).map (fun l => { data := l })

/-- Go `strings.Contains`: substring containment, as infix of the
character lists. -/
def containsSubstr (s pat : String) : Bool :=
  decide (pat.toList <:+: s.toList)

/-- The scan loop of `RequireSameOrg`: the segment after the first
`"organizations"` part that has a successor (`i+1 < len(parts)`), else
the empty string. -/
def findOrgSegment : List String → String
  | [] => ""
  | "organizations" :: next :: _ => next
  | _ :: rest => findOrgSegment rest

/-- Target-organization extraction of `RequireSameOrg`: only paths
containing `"/organizations/"` are split and scanned. -/
def extractTargetOrgID (path : String) : String :=
  if containsSubstr path "/organizations/" then
    findOrgSegment (goSplit path '/')
  else ""

/-- Model of `RequireSameOrg`: 401 without a context user; 403 when a non-empty
extracted organization id differs from the principal's
(`user.OrganizationID.String()`, here `toString`); otherwise dispatch.
The gate reads only the URL path, never the request body. -/
def requireSameOrg (ctxUser : Option User) (path : String) : AuthOutcome :=
  match ctxUser with
  | none => .respond 401 "Unauthorized"
  | some u =>
    if extractTargetOrgID path ≠ "" ∧ extractTargetOrgID path ≠ toString u.organizationID then
      .respond 403 "Forbidden"
    else .proceed u

/-- JWT errors distinguishable in the model of `ValidateToken` and of the
`jwt/v5` library validation it invokes. -/
inductive JwtError where
  | unexpectedMethod
  | invalidSignature
  | expired
  | notYetValid
deriving DecidableEq

/-- The `Claims` struct: principal id, organization id, role plus the
embedded registered temporal claims (seconds). -/
structure JwtClaims where
  userID : Nat
  organizationID : Nat
  role : String
  expiresAt : Nat
  issuedAt : Nat
  notBefore : Nat
deriving DecidableEq

/-- Signing algorithm of a token; the keyfunc in `ValidateToken` accepts
exactly the `*jwt.SigningMethodRSA` family. -/
inductive SigAlg where
  | RS256
  | RS384
  | RS512
  | HS256
deriving DecidableEq

/-- Whether the method type-asserts to `*jwt.SigningMethodRSA`. -/
def SigAlg.isRSA : SigAlg → Bool
  | .RS256 | .RS384 | .RS512 => true
  | .HS256 => false

/-- A structurally well-formed signed token: its claims, the header
algorithm, and the tag of the keypair whose private key produced the
signature. (Malformed byte strings never reach this type; the middleware
model routes any parse failure through the same error branch.) -/
structure SignedToken where
  claims : JwtClaims
  alg : SigAlg
  sigKey : Nat
deriving DecidableEq

/-- Model of `TokenManager`: one RSA keypair generated at process start, identified
by its tag; `privateKey` and `publicKey` of the same pair share the tag. -/
structure TokenManager where
  key : Nat
deriving DecidableEq

/-- Model of `(*TokenManager).GenerateToken`: claims carry the user's id, org and
role; `ExpiresAt = now + 15m`, `IssuedAt = NotBefore = now`; signed with
RS256 under the manager's private key. -/
def generateToken (tm : TokenManager) (u : User) (now : Nat) : SignedToken :=
  { claims :=
      { userID := u.id
        organizationID := u.organizationID
        role := u.role
        expiresAt := now + 15 * 60
        issuedAt := now
        notBefore := now }
    alg := .RS256
    sigKey := tm.key }

/-- Model of `(*TokenManager).ValidateToken` together with the `jwt/v5` checks it
triggers: the keyfunc rejects non-RSA methods, signature verification
compares against the manager's public key, then the default claim
validation requires `now < exp` (zero leeway) and `nbf ≤ now`. -/
def validateToken (tm : TokenManager) (tok : SignedToken) (now : Nat) :
    Except JwtError JwtClaims :=
  if ¬ tok.alg.isRSA then .error .unexpectedMethod
  else if tok.sigKey ≠ tm.key then .error .invalidSignature
  else if ¬ now < tok.claims.expiresAt then .error .expired
  else if now < tok.claims.notBefore then .error .notYetValid
  else .ok tok.claims

/-- Model of `RequireAuth`: reads the `Authorization` header (Go returns `""` when
the header is absent), splits on a single space expecting
`Bearer <token>`, validates the token string and loads the user by the
claim's user id; each failing check writes its own 401 response. The
token validator and the user store are the middleware's collaborators and
enter as function arguments. -/
def requireAuth (validate : String → Except JwtError JwtClaims)
    (getUserByID : Nat → Option User) (authHeader : String) : AuthOutcome :=
  if authHeader = "" then .respond 401 "Authorization header required"
  else
    let parts := goSplit authHeader ' '
    if parts.length ≠ 2 ∨ parts.getD 0 "" ≠ "Bearer" then
      .respond 401 "Invalid authorization header"
    else
      match validate (parts.getD 1 "") with
      | .error _ => .respond 401 "Invalid token"
      | .ok claims =>
        match getUserByID claims.userID with
        | none => .respond 401 "User not found"
        | some u => .proceed u

/-- A row of the `refresh_tokens` table (`RefreshToken` struct): session
id, owning user id, SHA-256 hash of the secret, expiry and creation
time. -/
structure RefreshTokenRow where
  id : Nat
  userID : Nat
  tokenHash : Nat
  expiresAt : Nat
  createdAt : Nat
deriving DecidableEq

/-- The `refresh_tokens` table, rows in insertion order. -/
abbrev RefreshTable := List RefreshTokenRow

/-- Errors of the refresh store: the two sentinel errors declared in the
source (`ErrRefreshTokenNotFound`, `ErrRefreshTokenExpired`), a raw
database error propagated unwrapped (`return nil, err`), and an error
from the user lookup. -/
inductive RefreshError where
  | transient (msg : String)
  | notFound
  | expired
  | userError (msg : String)
deriving DecidableEq

/-- Model of `CleanupExpiredTokens`: `DELETE FROM refresh_tokens WHERE
expires_at <= NOW()`, so exactly the rows with `now < expires_at`
survive. -/
def cleanupExpiredTokens (now : Nat) (tbl : RefreshTable) : RefreshTable :=
  tbl.filter (fun r => decide (now < r.expiresAt))

/-- The row inserted by `CreateRefreshToken`: fresh session id, the
user, the hash of the fresh secret, expiry `now + 7 days`. -/
def newRow (hash : Nat → Nat) (now newID secret userID : Nat) : RefreshTokenRow :=
  { id := newID
    userID := userID
    tokenHash := hash secret
    expiresAt := now + 7 * 24 * 60 * 60
    createdAt := now }

/-- The table produced by a successful `CreateRefreshToken` call: after
the sweep, every row of the user is deleted and the single new row is
inserted. -/
def createTable (hash : Nat → Nat) (now newID secret userID : Nat)
    (tbl : RefreshTable) : RefreshTable :=
  (cleanupExpiredTokens now tbl).filter (fun r => decide (r.userID ≠ userID)) ++
    [newRow hash now newID secret userID]

/-- Model of `(*DB).CreateRefreshToken`: if the preceding `CleanupExpiredTokens`
call errors, that error is returned at once (`return "", err`); otherwise
the fresh plaintext secret and the updated table are returned. The fresh
secret and the new row id stand for the `rand`/`uuid.New()` outputs;
`sweepErr` injects the database outcome of the sweep. (The delete and
insert statements are modelled as succeeding; their failure also aborts
the call in the source.) -/
def createRefreshToken (hash : Nat → Nat) (sweepErr : Option String)
    (now newID secret userID : Nat) (tbl : RefreshTable) :
    Except RefreshError (Nat × RefreshTable) :=
  match sweepErr with
  | some e => .error (.transient e)
  | none => .ok (secret, createTable hash now newID secret userID tbl)

/-- Model of `GetUser`, the external principal store: find by id. -/
def getUser (users : List User) (id : Nat) : Option User :=
  users.find? (fun u => decide (u.id = id))

/-- Model of `(*DB).ValidateRefreshToken`: the sweep error propagates unwrapped;
then the input is hashed and looked up by `SELECT ... WHERE token_hash =
$1 AND expires_at > NOW()`; any lookup miss is `ErrRefreshTokenNotFound`;
finally the owning user is loaded. -/
def validateRefreshToken (hash : Nat → Nat) (sweepErr : Option String)
    (now token : Nat) (users : List User) (tbl : RefreshTable) :
    Except RefreshError User :=
  match sweepErr with
  | some e => .error (.transient e)
  | none =>
    let tbl1 := cleanupExpiredTokens now tbl
    let tokenHash := hash token
    match tbl1.find? (fun r => decide (r.tokenHash = tokenHash ∧ now < r.expiresAt)) with
    | none => .error .notFound
    | some rt =>
      match getUser users rt.userID with
      | none => .error (.userError "user not found")
      | some u => .ok u

/-- The OAuth state store map: token → absolute expiry. The `sync.Map` is
modelled as a duplicate-free association list; `Store` overwrites,
`LoadAndDelete` removes. -/
abbrev StateStore := List (String × Nat)

/-- Model of `(*StateStore).StoreState`: insert the token with expiry
`now + expiration`, overwriting any previous entry for the token. -/
def storeState (s : StateStore) (state : String) (now expiration : Nat) : StateStore :=
  (state, now + expiration) :: s.filter (fun e => decide (e.1 ≠ state))

/-- Model of `(*StateStore).ValidateAndDeleteState`: `LoadAndDelete` the entry;
when present, the result is `!now.After(expiresAt)`, i.e. `now ≤
expiresAt`; when absent, `false`. The entry is removed whether or not the
expiry check passes. -/
def validateAndDeleteState (s : StateStore) (state : String) (now : Nat) :
    Bool × StateStore :=
  match s.find? (fun e => decide (e.1 = state)) with
  | some e => (decide (now ≤ e.2), s.filter (fun q => decide (q.1 ≠ state)))
  | none => (false, s)

/-! ## Concrete principals for the spec's scenarios -/

/-- An organization owner with empty overrides. -/
def ownerUser : User :=
  { id := 1, organizationID := 7, role := "owner", permissions := [] }

/-- A sub_account of the same organization with empty overrides. -/
def subAccountUser : User :=
  { id := 2, organizationID := 7, role := "sub_account", permissions := [] }

/-- A sub_account whose override set contains `create:org`. -/
def subAccountOverride : User :=
  { id := 3, organizationID := 7, role := "sub_account",
    permissions := [("create:org", true)] }

/-- A stored session row whose expiry (10) will be in the past at the
probe time 20, with hash 5. -/
def staleRow : RefreshTokenRow :=
  { id := 1, userID := 1, tokenHash := 5, expiresAt := 10, createdAt := 0 }

/-! ## Claims about the permission model -/

/-- C5: permission resolution. `HasPermission` returns true exactly when
the permission is in the static role→permission table for the user's role
or is granted by the user's override map; with empty overrides the owner
resolves both `create:org` and `read:org`, a sub_account fails
`create:org` but resolves `read:org`, and a sub_account whose override
set contains `create:org` resolves it. -/
theorem hasPermission_role_or_override :
    (∀ (u : User) (p : String),
        hasPermission u p = true ↔
          p ∈ RolePermissions u.role ∨ permsLookup u.permissions p = true)
    ∧ hasAllPermissions ownerUser ["create:org", "read:org"] = true
    ∧ hasPermission subAccountUser "create:org" = false
    ∧ hasPermission subAccountUser "read:org" = true
    ∧ hasPermission subAccountOverride "create:org" = true := by
  refine ⟨fun u p => ?_, by decide, by decide, by decide, by decide⟩
  simp [hasPermission, List.elem_iff]

/-- C9: empty permission lists at the gates. `HasAllPermissions` over an
empty list is true, so `RequirePermissions()` with zero required
permissions dispatches every authenticated principal; `HasAnyPermission`
over an empty list is false, so `RequireAnyPermission()` rejects every
principal with 403. -/
theorem empty_permission_list_gates :
    (∀ u : User, hasAllPermissions u [] = true)
    ∧ (∀ u : User, hasAnyPermission u [] = false)
    ∧ (∀ u : User, requirePermissions [] (some u) = .proceed u)
    ∧ (∀ u : User, requireAnyPermission [] (some u) = .respond 403 "Forbidden") := by
  refine ⟨fun u => rfl, fun u => rfl, fun u => ?_, fun u => ?_⟩ <;>
    simp [requirePermissions, requireAnyPermission, hasAllPermissions, hasAnyPermission]

/-! ## Claims about the token service -/

/-- C2: issue/verify round trip. For every token manager, user and
issuance time, validating a token immediately after generating it
succeeds, and the returned claims carry exactly the user's id,
organization id and role (alongside the temporal claims written at
issuance). -/
theorem issue_verify_roundtrip (tm : TokenManager) (u : User) (now : Nat) :
    validateToken tm (generateToken tm u now) now =
      .ok { userID := u.id, organizationID := u.organizationID, role := u.role,
            expiresAt := now + 15 * 60, issuedAt := now, notBefore := now } := by
  simp [validateToken, generateToken, SigAlg.isRSA]

/-- C3: access-token lifetime and expiry. Every issued token's
expires-at is exactly issuance time plus 15 minutes; a token whose
expires-at lies strictly in the past never validates to claims under any
manager; a token issued at `t0` validates at `t0 + 14m59s` and fails as
expired at `t0 + 15m1s`. -/
theorem token_lifetime_and_expiry :
    (∀ (tm : TokenManager) (u : User) (t0 : Nat),
        (generateToken tm u t0).claims.expiresAt = t0 + 15 * 60)
    ∧ (∀ (tm : TokenManager) (tok : SignedToken) (now : Nat),
        tok.claims.expiresAt < now → ∀ c, validateToken tm tok now ≠ .ok c)
    ∧ (∀ (tm : TokenManager) (u : User) (t0 : Nat),
        (validateToken tm (generateToken tm u t0) (t0 + 14 * 60 + 59)).isOk = true)
    ∧ (∀ (tm : TokenManager) (u : User) (t0 : Nat),
        validateToken tm (generateToken tm u t0) (t0 + 15 * 60 + 1) =
          .error .expired) := by
  refine ⟨fun tm u t0 => rfl, fun tm tok now hlt c => ?_, fun tm u t0 => ?_, fun tm u t0 => ?_⟩
  · unfold validateToken
    have hnow : ¬ now < tok.claims.expiresAt := by omega
    by_cases h1 : tok.alg.isRSA = true <;> by_cases h2 : tok.sigKey = tm.key <;>
      simp [h1, h2, hnow]
  · have h : ¬ t0 + 14 * 60 + 59 < t0 := by omega
    simp [validateToken, generateToken, SigAlg.isRSA, Except.isOk, Except.toBool, h]
  · simp [validateToken, generateToken, SigAlg.isRSA]

/-- Witness for C3: a concrete expired token (issued at 0, checked at
time 1000) is rejected whatever claims one proposes. -/
theorem token_lifetime_and_expiry_witness :
    validateToken { key := 0 } (generateToken { key := 0 } ownerUser 0) 1000 ≠
      .ok (generateToken { key := 0 } ownerUser 0).claims :=
  token_lifetime_and_expiry.2.1 { key := 0 }
    (generateToken { key := 0 } ownerUser 0) 1000 (by decide)
    (generateToken { key := 0 } ownerUser 0).claims

/-! ## Claims about the auth middleware -/

/-- C8 counterexample: with the same collaborators, a request with no
`Authorization` header and a request with a malformed header both fail
with status 401 but receive different response bodies — and a bad token
yields yet another body — so authentication failures do not collapse to
one generic response body. -/
theorem requireAuth_bodies_differ :
    requireAuth (fun _ => .error .expired) (fun _ => none) "" =
      .respond 401 "Authorization header required"
    ∧ requireAuth (fun _ => .error .expired) (fun _ => none) "Token abc" =
      .respond 401 "Invalid authorization header"
    ∧ requireAuth (fun _ => .error .expired) (fun _ => none) "Bearer abc" =
      .respond 401 "Invalid token"
    ∧ ("Authorization header required" ≠ "Invalid authorization header"
        ∧ "Invalid authorization header" ≠ "Invalid token") := by
  refine ⟨rfl, ?_, ?_, by decide⟩ <;> decide

/-- C8 amended: every authentication-failure response of `RequireAuth`
carries the same status 401, whatever the collaborators and header, but
the response bodies name the failed check (missing header, malformed
header, invalid token, unknown user). -/
theorem requireAuth_failures_same_status (validate : String → Except JwtError JwtClaims)
    (getUserByID : Nat → Option User) (hdr : String) (s : Nat) (b : String)
    (h : requireAuth validate getUserByID hdr = .respond s b) : s = 401 := by
  unfold requireAuth at h
  split at h
  · injection h with h1 h2
    exact h1.symm
  · dsimp only at h
    split at h
    · injection h with h1 h2
      exact h1.symm
    · split at h
      · injection h with h1 h2
        exact h1.symm
      · split at h
        · injection h with h1 h2
          exact h1.symm
        · exact AuthOutcome.noConfusion h

/-- Witness for C8 amended: the missing-header failure at concrete
collaborators has status 401. -/
theorem requireAuth_failures_same_status_witness : (401 : Nat) = 401 :=
  requireAuth_failures_same_status (fun _ => Except.error JwtError.expired)
    (fun _ => none) "" 401 "Authorization header required" rfl

/-- C10: the organization-scope gate. For an authenticated principal,
when the path yields no organization id segment after `/organizations/`
the gate dispatches unconditionally; and the gate responds 403 Forbidden
exactly when the extracted organization id is non-empty and differs from
the principal's organization id. (The model reads only the URL path:
`RequireSameOrg` never touches the request body.) -/
theorem requireSameOrg_spec (u : User) (path : String) :
    (extractTargetOrgID path = "" → requireSameOrg (some u) path = .proceed u)
    ∧ (requireSameOrg (some u) path = .respond 403 "Forbidden" ↔
        extractTargetOrgID path ≠ "" ∧
          extractTargetOrgID path ≠ toString u.organizationID) := by
  constructor
  · intro h
    simp [requireSameOrg, h]
  · by_cases h1 : extractTargetOrgID path = ""
    · simp [requireSameOrg, h1]
    · by_cases h2 : extractTargetOrgID path = toString u.organizationID
      · simp [requireSameOrg, h1, h2]
      · simp [requireSameOrg, h1, h2]

/-- Witness for C10: the path `/health` has no organization segment, so
the gate dispatches the concrete owner; and on the path of a foreign
organization the gate responds 403. -/
theorem requireSameOrg_spec_witness :
    requireSameOrg (some ownerUser) "/health" = .proceed ownerUser
    ∧ requireSameOrg (some ownerUser) "/organizations/9/users" =
        .respond 403 "Forbidden" :=
  ⟨(requireSameOrg_spec ownerUser "/health").1 (by decide),
   (requireSameOrg_spec ownerUser "/organizations/9/users").2.mpr (by decide)⟩

/-! ## Claims about the OAuth state store -/

/-- After consuming a token, no entry for it remains: helper about the
store `ValidateAndDeleteState` leaves behind. -/
theorem find?_filter_ne_self (s : StateStore) (t : String) :
    (s.filter (fun q => decide (q.1 ≠ t))).find? (fun e => decide (e.1 = t)) = none := by
  rw [List.find?_eq_none]
  intro e he
  have := (List.mem_filter.mp he).2
  simp at this ⊢
  exact this

/-- Consuming a token with no entry returns false and
leaves the store unchanged. -/
theorem validateAndDeleteState_not_found (s : StateStore) (t : String) (now : Nat)
    (h : s.find? (fun e => decide (e.1 = t)) = none) :
    validateAndDeleteState s t now = (false, s) := by
  unfold validateAndDeleteState
  rw [h]

/-- C4: OAuth state single use with independent expiry check. Storing a
token and consuming it returns true exactly when consumption happens no
later than the stored expiry; the entry is gone after the first attempt
whatever its outcome; a second consumption of the same token returns
false; and consuming only after the ttl has elapsed returns false even
though no background sweep has run. -/
theorem oauth_state_single_use (s : StateStore) (t : String) (now0 ttl now1 now2 : Nat) :
    ((validateAndDeleteState (storeState s t now0 ttl) t now1).1 =
        decide (now1 ≤ now0 + ttl))
    ∧ ((validateAndDeleteState (storeState s t now0 ttl) t now1).2.find?
        (fun e => decide (e.1 = t)) = none)
    ∧ ((validateAndDeleteState
          ((validateAndDeleteState (storeState s t now0 ttl) t now1).2) t now2).1 = false)
    ∧ (now0 + ttl < now1 →
        (validateAndDeleteState (storeState s t now0 ttl) t now1).1 = false) := by
  have hfind : (storeState s t now0 ttl).find? (fun e => decide (e.1 = t)) =
      some (t, now0 + ttl) := by
    simp [storeState, List.find?]
  have h2 : (validateAndDeleteState (storeState s t now0 ttl) t now1).2.find?
      (fun e => decide (e.1 = t)) = none := by
    unfold validateAndDeleteState
    rw [hfind]
    exact find?_filter_ne_self _ t
  refine ⟨?_, h2, ?_, ?_⟩
  · unfold validateAndDeleteState
    rw [hfind]
  · rw [validateAndDeleteState_not_found _ _ _ h2]
  · intro hlt
    unfold validateAndDeleteState
    rw [hfind]
    simpa using hlt

/-- Witness for C4: a concrete token stored at time 0 with ttl 5 and
first consumed at time 10 — after the ttl elapsed, never swept — yields
false, the entry is gone, and a second attempt at time 11 yields
false. -/
theorem oauth_state_single_use_witness :
    ((validateAndDeleteState (storeState [] "tok" 0 5) "tok" 10).1 = false)
    ∧ ((validateAndDeleteState (storeState [] "tok" 0 5) "tok" 10).2.find?
        (fun e => decide (e.1 = "tok")) = none)
    ∧ ((validateAndDeleteState
          ((validateAndDeleteState (storeState [] "tok" 0 5) "tok" 10).2) "tok" 11).1 = false) := by
  have h := oauth_state_single_use [] "tok" 0 5 10 11
  exact ⟨h.2.2.2 (by decide), h.2.1, h.2.2.1⟩

/-! ## Claims about the refresh session store -/

/-- C6 counterexample: at time 20 the table holds exactly one row, whose
hash matches the hash of the presented secret and whose expiry (10) has
passed; `ValidateRefreshToken` returns `ErrRefreshTokenNotFound`, not the
declared `ErrRefreshTokenExpired`, so the matched-but-expired cause is
not distinguished from the no-match cause. -/
theorem validate_expired_row_yields_notFound :
    ((fun n => n) 5 = staleRow.tokenHash ∧ staleRow.expiresAt < 20)
    ∧ validateRefreshToken (fun n => n) none 20 5 [ownerUser] [staleRow] =
      .error .notFound
    ∧ RefreshError.notFound ≠ RefreshError.expired := by
  exact ⟨by decide, rfl, by decide⟩

/-- No control path of `ValidateRefreshToken` produces the `expired`
sentinel. -/
theorem validateRT_never_expired (hash : Nat → Nat) (now token : Nat)
    (users : List User) (tbl : RefreshTable) :
    validateRefreshToken hash none now token users tbl ≠ .error .expired := by
  unfold validateRefreshToken
  dsimp only
  split
  · simp
  · split <;> simp

/-- The lookup fails with `notFound` exactly when no stored row matches
the hash with a live expiry. -/
theorem validateRT_notFound_iff (hash : Nat → Nat) (now token : Nat)
    (users : List User) (tbl : RefreshTable) :
    validateRefreshToken hash none now token users tbl = .error .notFound ↔
      ∀ r ∈ tbl, ¬ (r.tokenHash = hash token ∧ now < r.expiresAt) := by
  unfold validateRefreshToken
  dsimp only
  constructor
  · intro h
    split at h
    · next hfind =>
      rw [List.find?_eq_none] at hfind
      intro r hr hcontra
      have hm : r ∈ cleanupExpiredTokens now tbl := by
        rw [cleanupExpiredTokens, List.mem_filter]
        exact ⟨hr, by simpa using hcontra.2⟩
      have hle := hfind r hm
      simp at hle
      have h1 := hle hcontra.1
      have h2 := hcontra.2
      omega
    · split at h <;> simp_all
  · intro hall
    have hfind : (cleanupExpiredTokens now tbl).find?
        (fun r => decide (r.tokenHash = hash token ∧ now < r.expiresAt)) = none := by
      rw [List.find?_eq_none]
      intro r hr
      have hr0 : r ∈ tbl := (List.mem_filter.mp hr).1
      simpa using hall r hr0
    rw [hfind]

/-- C6 amended: the refresh-validation error outcome. With a successful
sweep, `ValidateRefreshToken` never returns `ErrRefreshTokenExpired`
(the sentinel is declared but unreachable: the sweep deletes expired rows
and the lookup requires a live expiry), and it fails with
`ErrRefreshTokenNotFound` exactly when no stored row's hash matches the
hash of the input with an unexpired expiry — which covers forged,
rotated, and expired secrets alike. -/
theorem validate_error_taxonomy (hash : Nat → Nat) (now token : Nat)
    (users : List User) (tbl : RefreshTable) :
    validateRefreshToken hash none now token users tbl ≠ .error .expired
    ∧ (validateRefreshToken hash none now token users tbl = .error .notFound ↔
        ∀ r ∈ tbl, ¬ (r.tokenHash = hash token ∧ now < r.expiresAt)) :=
  ⟨validateRT_never_expired hash now token users tbl,
   validateRT_notFound_iff hash now token users tbl⟩

/-- Witness for C6 amended: on the empty table the result is the
not-found error (no row matches), and it is not the expired error. -/
theorem validate_error_taxonomy_witness :
    validateRefreshToken (fun n => n) none 0 5 [] [] ≠ .error .expired
    ∧ validateRefreshToken (fun n => n) none 0 5 [] [] = .error .notFound := by
  have h := validate_error_taxonomy (fun n => n) 0 5 [] []
  exact ⟨h.1, h.2.mpr (by simp)⟩

/-- C7 counterexample: a failing sweep makes the primary operation fail.
With the sweep's database call erroring, `CreateRefreshToken` and
`ValidateRefreshToken` both return that error instead of proceeding. -/
theorem sweep_failure_blocks_primary_op :
    createRefreshToken (fun n => n) (some "db down") 0 1 2 3 [] =
      .error (.transient "db down")
    ∧ validateRefreshToken (fun n => n) (some "db down") 0 2 [] [] =
      .error (.transient "db down") :=
  ⟨rfl, rfl⟩

/-- C7 amended: a failure of the preceding expired-session sweep aborts
the create/validate operation — the sweep's error is propagated as the
operation's result (`return "", err` / `return nil, err`), for every
state of the store. -/
theorem sweep_failure_propagates (hash : Nat → Nat) (e : String)
    (now newID secret userID token : Nat) (users : List User) (tbl : RefreshTable) :
    createRefreshToken hash (some e) now newID secret userID tbl =
      .error (.transient e)
    ∧ validateRefreshToken hash (some e) now token users tbl =
      .error (.transient e) :=
  ⟨rfl, rfl⟩

/-! ## C1: single-active-session rotation -/

/-- Lookup by `find?` skips an append's first part when it yields nothing there. -/
theorem find?_append_of_none {α : Type} {l1 l2 : List α} {f : α → Bool}
    (h : l1.find? f = none) : (l1 ++ l2).find? f = l2.find? f := by
  induction l1 with
  | nil => rfl
  | cons a l ih =>
    rw [List.find?_cons] at h
    rw [List.cons_append, List.find?_cons]
    cases hfa : f a with
    | true =>
      rw [hfa] at h
      exact Option.noConfusion h
    | false =>
      rw [hfa] at h
      exact ih h

/-- Membership after one create: either a surviving row of a different
user, or the freshly inserted row. -/
theorem mem_createTable_elim {hash : Nat → Nat} {now newID secret p : Nat}
    {tbl : RefreshTable} {r : RefreshTokenRow}
    (h : r ∈ createTable hash now newID secret p tbl) :
    (r ∈ tbl ∧ r.userID ≠ p) ∨ r = newRow hash now newID secret p := by
  unfold createTable cleanupExpiredTokens at h
  rcases List.mem_append.mp h with h | h
  · rw [List.mem_filter] at h
    obtain ⟨h1, h2⟩ := h
    rw [List.mem_filter] at h1
    refine .inl ⟨h1.1, ?_⟩
    simpa using h2
  · exact .inr (by simpa using h)

/-- After a create, exactly one stored row belongs to the creating
user. -/
theorem count_createTable_self (hash : Nat → Nat) (now newID secret p : Nat)
    (tbl : RefreshTable) :
    ((createTable hash now newID secret p tbl).filter
      (fun r => decide (r.userID = p))).length = 1 := by
  unfold createTable
  rw [List.filter_append]
  have hnil : ((cleanupExpiredTokens now tbl).filter
      (fun r => decide (r.userID ≠ p))).filter (fun r => decide (r.userID = p)) = [] := by
    rw [List.filter_eq_nil_iff]
    intro a ha
    have h2 := (List.mem_filter.mp ha).2
    simp at h2 ⊢
    exact h2
  rw [hnil]
  simp [newRow, List.filter]

/-- A create never increases another user's row count. -/
theorem count_createTable_other (hash : Nat → Nat) (now newID secret p q : Nat)
    (tbl : RefreshTable) (hq : q ≠ p) :
    ((createTable hash now newID secret p tbl).filter
      (fun r => decide (r.userID = q))).length ≤
      (tbl.filter (fun r => decide (r.userID = q))).length := by
  unfold createTable cleanupExpiredTokens
  rw [List.filter_append]
  have hrow : ([newRow hash now newID secret p]).filter
      (fun r => decide (r.userID = q)) = [] := by
    simp [newRow, List.filter, Ne.symm hq]
  rw [hrow, List.append_nil]
  exact List.Sublist.length_le
    (List.Sublist.filter _
      (List.Sublist.trans (List.filter_sublist _) (List.filter_sublist _)))

/-- Successful refresh validation via a concrete matched row. -/
theorem validateRT_ok (hash : Nat → Nat) (now token : Nat) (users : List User)
    (tbl : RefreshTable) (rt : RefreshTokenRow) (u : User)
    (hfind : (cleanupExpiredTokens now tbl).find?
        (fun r => decide (r.tokenHash = hash token ∧ now < r.expiresAt)) = some rt)
    (huser : getUser users rt.userID = some u) :
    validateRefreshToken hash none now token users tbl = .ok u := by
  unfold validateRefreshToken
  dsimp only
  rw [hfind]
  dsimp only
  rw [huser]

/-- Validating the secret just stored by a create succeeds with the
creating user's account, provided no surviving foreign row carries the
new hash. -/
theorem validateRT_after_create (hash : Nat → Nat) (now newID secret p : Nat)
    (users : List User) (u : User) (tbl : RefreshTable)
    (hfresh2 : ∀ r ∈ tbl, r.userID ≠ p → r.tokenHash ≠ hash secret)
    (huser : getUser users p = some u) :
    validateRefreshToken hash none now secret users
      (createTable hash now newID secret p tbl) = .ok u := by
  have hpred : (fun r => decide (r.tokenHash = hash secret ∧ now < r.expiresAt))
      (newRow hash now newID secret p) = true := by
    simp [newRow]
  have hnone : (((cleanupExpiredTokens now tbl).filter
      (fun r => decide (r.userID ≠ p))).filter
        (fun r => decide (now < r.expiresAt))).find?
      (fun r => decide (r.tokenHash = hash secret ∧ now < r.expiresAt)) = none := by
    rw [List.find?_eq_none]
    intro r hr
    have h1 := (List.mem_filter.mp hr).1
    have h2 := List.mem_filter.mp h1
    have h3 : r ∈ tbl := by
      unfold cleanupExpiredTokens at h2
      exact (List.mem_filter.mp h2.1).1
    have h4 : r.userID ≠ p := by simpa using h2.2
    have h5 := hfresh2 r h3 h4
    simp [h5]
  apply validateRT_ok hash now secret users _ (newRow hash now newID secret p) u ?_ huser
  have hstep : cleanupExpiredTokens now (createTable hash now newID secret p tbl) =
      (((cleanupExpiredTokens now tbl).filter
        (fun r => decide (r.userID ≠ p))).filter
          (fun r => decide (now < r.expiresAt))) ++ [newRow hash now newID secret p] := by
    show List.filter _ (_ ++ _) = _
    rw [List.filter_append]
    congr 1
    simp [newRow, List.filter]
  rw [hstep, find?_append_of_none hnone]
  exact List.find?_cons_of_pos _ hpred

/-- C1: single-active-session rotation. The fresh secrets of the two
creates are modelled as inputs, with their cryptographic freshness as
hypotheses (distinct from one another and their hashes absent from the
prior table) and SHA-256 collision resistance as injectivity of `hash`.
After `CreateRefreshToken` for principal `p` returns `s1` and a second
call returns `s2`: the two secrets differ, exactly one stored row belongs
to `p` (and no other principal gained rows), validating `s1` now fails
with `ErrRefreshTokenNotFound`, and validating `s2` succeeds with `p`'s
user. -/
theorem single_active_session (hash : Nat → Nat) (now id1 id2 p s1 s2 : Nat)
    (users : List User) (u : User) (tbl : RefreshTable)
    (hs : s1 ≠ s2)
    (hinj : Function.Injective hash)
    (hfresh : ∀ r ∈ tbl, r.tokenHash ≠ hash s1 ∧ r.tokenHash ≠ hash s2)
    (huser : getUser users p = some u) :
    createRefreshToken hash none now id1 s1 p tbl =
      .ok (s1, createTable hash now id1 s1 p tbl)
    ∧ createRefreshToken hash none now id2 s2 p (createTable hash now id1 s1 p tbl) =
      .ok (s2, createTable hash now id2 s2 p (createTable hash now id1 s1 p tbl))
    ∧ s2 ≠ s1
    ∧ ((createTable hash now id2 s2 p (createTable hash now id1 s1 p tbl)).filter
        (fun r => decide (r.userID = p))).length = 1
    ∧ (∀ q, q ≠ p →
        ((createTable hash now id2 s2 p (createTable hash now id1 s1 p tbl)).filter
          (fun r => decide (r.userID = q))).length ≤
          (tbl.filter (fun r => decide (r.userID = q))).length)
    ∧ validateRefreshToken hash none now s1 users
        (createTable hash now id2 s2 p (createTable hash now id1 s1 p tbl)) =
      .error .notFound
    ∧ validateRefreshToken hash none now s2 users
        (createTable hash now id2 s2 p (createTable hash now id1 s1 p tbl)) =
      .ok u := by
  refine ⟨rfl, rfl, fun h => hs h.symm, count_createTable_self .., ?_, ?_, ?_⟩
  · intro q hq
    exact le_trans (count_createTable_other hash now id2 s2 p q _ hq)
      (count_createTable_other hash now id1 s1 p q tbl hq)
  · rw [validateRT_notFound_iff]
    intro r hr hcontra
    rcases mem_createTable_elim hr with ⟨hr1, hne⟩ | hr1
    · rcases mem_createTable_elim hr1 with ⟨hr2, _⟩ | hr2
      · exact (hfresh r hr2).1 hcontra.1
      · rw [hr2] at hne
        simp [newRow] at hne
    · rw [hr1] at hcontra
      simp [newRow] at hcontra
      exact hs (hinj hcontra.symm)
  · apply validateRT_after_create hash now id2 s2 p users u _ ?_ huser
    intro r hr hne
    rcases mem_createTable_elim hr with ⟨hr2, _⟩ | hr2
    · exact (hfresh r hr2).2
    · rw [hr2]
      simp [newRow]
      exact fun h => hs (hinj h)

/-- Witness for C1: with identity as the hash, principal 1 (the concrete
owner) creates session secret 10 and then secret 20 on the empty table;
all parts of the rotation property evaluate as stated. -/
theorem single_active_session_witness :
    createRefreshToken (fun n => n) none 0 100 10 1 [] =
      .ok (10, createTable (fun n => n) 0 100 10 1 [])
    ∧ createRefreshToken (fun n => n) none 0 101 20 1 (createTable (fun n => n) 0 100 10 1 []) =
      .ok (20, createTable (fun n => n) 0 101 20 1 (createTable (fun n => n) 0 100 10 1 []))
    ∧ (20 : Nat) ≠ 10
    ∧ ((createTable (fun n => n) 0 101 20 1 (createTable (fun n => n) 0 100 10 1 [])).filter
        (fun r => decide (r.userID = 1))).length = 1
    ∧ validateRefreshToken (fun n => n) none 0 10 [ownerUser]
        (createTable (fun n => n) 0 101 20 1 (createTable (fun n => n) 0 100 10 1 [])) =
      .error .notFound
    ∧ validateRefreshToken (fun n => n) none 0 20 [ownerUser]
        (createTable (fun n => n) 0 101 20 1 (createTable (fun n => n) 0 100 10 1 [])) =
      .ok ownerUser := by
  have h := single_active_session (fun n => n) 0 100 101 1 10 20 [ownerUser] ownerUser []
    (by decide) (fun a b hab => hab) (by simp) (by decide)
  exact ⟨h.1, h.2.1, h.2.2.1, h.2.2.2.1, h.2.2.2.2.2.1, h.2.2.2.2.2.2⟩

end Huachuca
